import Mathlib

/-
Verification of the client-side real-time synchronization engine of the
palanam-latency repository against its natural-language specification.

The engine is realized twice in the repository:

* the web player component (src/unnamed/part_001, a React component; the
  same logic also appears in src/Latency-Web-App/src/VideoPlayer.jsx), and
* the browser-extension `VideoProcessor` class
  (src/extension/background.js, content-script section).

Both are embedded below as pure state-transition functions.  Playback
times, durations and confidences are JavaScript numbers in the source; all
concrete values involved are small decimal fractions, so they are embedded
as rationals (ℚ), on which the source's arithmetic (`Math.floor`, `Math.min`,
addition, comparison) is exact.  DOM / network side effects are modelled as
explicit outputs: outbound WebSocket messages as `OutMsg` values, canvas
drawing as `DrawCmd` lists, and scheduled timers as recorded fields
(`cooldownTimer`, reconnect-delay logs).  The host's `JSON.parse`, which
either yields a structured message or throws, is embedded as an
`Option Message` input: `none` is a payload that fails to parse.
-/

/-- A classification record delivered by the backend: the raw timestamp it
was computed for, the model confidence, a label and the flagged verdict
(field names follow the JSON payload in the source). -/
structure Classification where
  timestamp : ℚ
  confidence : ℚ
  label : String
  is_nsfw : Bool
deriving DecidableEq

/-- The user-facing skip policy (`skipSettings` in part_001 / `settings` in
the extension): enabled flag, seconds to skip forward, confidence
threshold, and buffer time (the latter is never read by the core logic). -/
structure SkipSettings where
  enabled : Bool
  skipDuration : ℚ
  confidenceThreshold : ℚ
  bufferTime : ℚ
deriving DecidableEq

/-- A recorded skip decision (`skipEvent` in part_001 / the object pushed
onto `skipHistory` in the extension).  The wall-clock ISO string stored in
the source's `timestamp` field is not modelled. -/
structure SkipEvent where
  fromTime : ℚ
  toTime : ℚ
  confidence : ℚ
  label : String
deriving DecidableEq

/-- Metadata carried by `video_info` messages: duration, fps and a frame count. -/
structure VideoInfo where
  duration : ℚ
  fps : ℚ
  total_frames : Nat
deriving DecidableEq

/-- Parsed inbound WebSocket messages, one constructor per recognized
`type` discriminator in the source's switch statements; `unknown` covers
the default case. -/
inductive Message where
  | video_info (info : VideoInfo)
  | classification (c : Classification)
  | connection_established
  | error (msg : String)
  | ping
  | unknown
deriving DecidableEq

/-- Outbound WebSocket messages sent by the client. -/
inductive OutMsg where
  | process_frame (timestamp : ℚ)
  | pong
  | connect
deriving DecidableEq

/-- Canvas drawing commands, abstracting the 2D-context calls in the
source.  `classText`/`confBar` are the classification overlay (label text
plus proportional confidence bar); `skipText` is the web player's centered
"SKIPPING NSFW CONTENT" text (text only, no background fill);
`fullFrameFill` is the extension's full-canvas `rgba(0,0,0,0.8)` rectangle;
`spinner` is the extension's arc spinner. -/
inductive DrawCmd where
  | clear
  | classText (label : String) (confidence : ℚ) (is_nsfw : Bool)
  | confBar (confidence : ℚ) (is_nsfw : Bool)
  | skipText
  | fullFrameFill
  | spinner
deriving DecidableEq

/-- Time-bucket quantization, `Math.floor(t * 2) / 2` in the source
(bucket width 0.5 s).  The identical expression is used by the sampler
(`processCurrentFrame`), by the store writer (the `classification` message
case) and by the lookback loop (`updateOverlay`). -/
def quantize (t : ℚ) : ℚ := ((⌊t * 2⌋ : ℤ) : ℚ) / 2

/-- The classification store, `classifications` in the source: a Map from
quantized timestamp to the classification record, embedded as a function
to `Option`. -/
def Store : Type := ℚ → Option Classification

/-- The empty store (`new Map()`). -/
def emptyStore : Store := fun _ => none

/-- Embedding of `classifications.set(Math.floor(data.timestamp * 2) / 2, data)`:
insert/overwrite keyed by the quantized raw timestamp (last-write-wins). -/
def put (store : Store) (c : Classification) : Store :=
  fun k => if k = quantize c.timestamp then some c else store k

/-- A store built from an arbitrary sequence of classification arrivals. -/
def buildStore (cs : List Classification) : Store :=
  cs.foldl put emptyStore

/-- The bucket checked at loop index `i` of the lookback loop:
`checkTime = timeKey - i * 0.5` (part_001 line 148). -/
def bucketBefore (currentTime : ℚ) (i : Nat) : ℚ :=
  quantize currentTime - (i : ℚ) * (1 / 2)

/-- The lookback loop of `updateOverlay` (part_001 lines 144-153),
unrolled: `for (let i = 0; i <= 4; i++) { const checkTime = timeKey - i * 0.5;
if (classifications.has(checkTime)) { relevant = get(checkTime); break } }` —
the first populated bucket among offsets 0, 0.5, 1.0, 1.5, 2.0 below the
quantized query time, or `none` when all five are empty. -/
def lookupRelevant (store : Store) (currentTime : ℚ) : Option Classification :=
  match store (bucketBefore currentTime 0) with
  | some c => some c
  | none =>
    match store (bucketBefore currentTime 1) with
    | some c => some c
    | none =>
      match store (bucketBefore currentTime 2) with
      | some c => some c
      | none =>
        match store (bucketBefore currentTime 3) with
        | some c => some c
        | none => store (bucketBefore currentTime 4)

/-- The spec's five-valued channel state (§3 ChannelSession). -/
inductive ChannelState where
  | Closed
  | Connecting
  | Open
  | Reconnecting
  | Failed
deriving DecidableEq

namespace WebPlayer

/-- The mutable state of the web player component (part_001) that the core
logic reads and writes: React state (`isSkipping`, `skipHistory`,
`classifications`, `currentClassification`, `videoInfo`, `errorMsg`,
`isConnected`), refs (`lastProcessedTime`, the pending skip timeout
`cooldownTimer`), and the externally owned media element's observable
state (`currentTime`, `duration`, `paused`).  `wsOpen` is
`wsRef.current && wsRef.current.readyState === WebSocket.OPEN`. -/
structure State where
  isSkipping : Bool
  skipHistory : List SkipEvent
  cooldownTimer : Option ℚ
  currentTime : ℚ
  duration : ℚ
  paused : Bool
  classifications : Store
  currentClassification : Option Classification
  videoInfo : Option VideoInfo
  errorMsg : Option String
  lastProcessedTime : ℚ
  wsOpen : Bool
  isConnected : Bool

/-- Embedding of `skipNSFWContent` (part_001 lines 56-101).  Guards: skip settings
enabled, not already skipping (`isSkipping` reentrancy guard), flagged,
and `confidence < threshold` returns early (so the skip fires when
confidence ≥ threshold).  On firing: record the skip event, seek the media
clock to `min(currentTime + skipDuration, duration - 1)`, and schedule the
1000 ms cool-down timeout that clears `isSkipping`.  The `!videoRef.current`
guard (media element present) is an environment precondition and is taken
to hold. -/
def skipNSFWContent (settings : SkipSettings) (c : Classification)
    (s : State) : State :=
  if settings.enabled = false ∨ s.isSkipping = true then s
  else if c.is_nsfw = false ∨ c.confidence < settings.confidenceThreshold then s
  else
    let fromTime := s.currentTime
    let skipToTime := min (fromTime + settings.skipDuration) (s.duration - 1)
    { s with
      isSkipping := true
      skipHistory := s.skipHistory ++
        [{ fromTime := fromTime, toTime := skipToTime,
           confidence := c.confidence, label := c.label }]
      currentTime := skipToTime
      cooldownTimer := some 1000 }

/-- The `"classification"` case of `handleWebSocketMessage` (part_001
lines 344-353): store the record under its quantized timestamp, then
`if (data.is_nsfw && skipSettings.enabled) skipNSFWContent(data)`. -/
def handleClassification (settings : SkipSettings) (c : Classification)
    (s : State) : State :=
  let s1 := { s with classifications := put s.classifications c }
  if c.is_nsfw = true ∧ settings.enabled = true then
    skipNSFWContent settings c s1
  else s1

/-- Embedding of `handleWebSocketMessage` (part_001 lines 333-381).  The whole body is
wrapped in try/catch around `JSON.parse` and the dispatch, so a payload
that fails to parse (`none`) only logs and leaves the state untouched.
Returns the new state and the outbound messages sent (the pong reply). -/
def handleWebSocketMessage (settings : SkipSettings) (raw : Option Message)
    (s : State) : State × List OutMsg :=
  match raw with
  | none => (s, [])
  | some m =>
    match m with
    | Message.video_info info => ({ s with videoInfo := some info }, [])
    | Message.classification c => (handleClassification settings c s, [])
    | Message.connection_established => ({ s with isConnected := true }, [])
    | Message.error msg =>
        ({ s with errorMsg := some msg, isConnected := false }, [])
    | Message.ping =>
        (s, if s.wsOpen = true then [OutMsg.pong] else [])
    | Message.unknown => (s, [])

/-- Embedding of `processCurrentFrame` (part_001 lines 104-127): return early unless
the socket is OPEN and not mid-skip; then, if the media is playing and the
quantized time differs from `lastProcessedTime`, record the new bucket and
send a `process_frame` request carrying the raw current time. -/
def processCurrentFrame (s : State) : Option OutMsg × State :=
  if s.wsOpen = false ∨ s.isSkipping = true then (none, s)
  else
    let timeKey := quantize s.currentTime
    if s.paused = false ∧ timeKey ≠ s.lastProcessedTime then
      (some (OutMsg.process_frame s.currentTime),
       { s with lastProcessedTime := timeKey })
    else (none, s)

/-- One tick of `updateOverlay` (part_001 lines 130-201), run per
animation frame: clear the canvas, look up the relevant classification
via the 5-bucket lookback and draw its overlay if found (text plus
confidence bar, also updating `currentClassification`), then if
`isSkipping` draw the centered skip text on top, and finally call
`processCurrentFrame`.  Returns the draw-command list, the outbound
request (if any) and the new state.  The guard for momentarily missing
video/canvas refs only reschedules the frame and is taken to pass. -/
def updateOverlay (s : State) :
    List DrawCmd × Option OutMsg × State :=
  let rel := lookupRelevant s.classifications s.currentTime
  let s1 :=
    match rel with
    | some c => { s with currentClassification := some c }
    | none => s
  let classCmds :=
    match rel with
    | some c => [DrawCmd.classText c.label c.confidence c.is_nsfw,
                 DrawCmd.confBar c.confidence c.is_nsfw]
    | none => []
  let skipCmds := if s.isSkipping = true then [DrawCmd.skipText] else []
  let out := processCurrentFrame s1
  (DrawCmd.clear :: (classCmds ++ skipCmds), out.1, out.2)

/-- External events driving the web player: an inbound channel message
(already put through `JSON.parse`), the skip cool-down timeout firing
(`setIsSkipping(false)`), a seek of the media clock (part_001 installs no
`seeked` handler, so a seek only moves `currentTime`), and a render tick. -/
inductive Event where
  | message (raw : Option Message)
  | cooldownFire
  | seek (t : ℚ)
  | renderTick

/-- One step of the web player's cooperative event loop. -/
def step (settings : SkipSettings) (e : Event) (s : State) : State :=
  match e with
  | Event.message raw => (handleWebSocketMessage settings raw s).1
  | Event.cooldownFire => { s with isSkipping := false, cooldownTimer := none }
  | Event.seek t => { s with currentTime := t }
  | Event.renderTick => (updateOverlay s).2.2

/-- The web player's channel-lifecycle state observable from
`startWebSocketConnection` (part_001 lines 384-424): whether the component
believes it is connected, whether a reconnection timer is currently
pending, and the log of every reconnection delay ever scheduled. -/
structure Ch where
  isConnected : Bool
  pendingReconnect : Bool
  reconnectDelays : List ℚ
deriving DecidableEq

/-- Embedding of `ws.onclose` (part_001 lines 409-419): set disconnected; then
`if (event.code !== 1000 && sessionId)` schedule a reconnection after a
fixed 3000 ms delay.  There is no attempt counter and no backoff. -/
def onClose (sessionActive : Bool) (code : Nat) (s : Ch) : Ch :=
  let s1 := { s with isConnected := false }
  if code ≠ 1000 ∧ sessionActive = true then
    { s1 with pendingReconnect := true,
              reconnectDelays := s1.reconnectDelays ++ [3000] }
  else s1

/-- Modelled from the spec: the spec's `ChannelSession.channelState` field
(§3) has no explicit counterpart in part_001; it is derived here from the
code's observable state — a pending reconnection timer means Reconnecting,
an open socket means Open, otherwise Closed. -/
def Ch.channelState (s : Ch) : ChannelState :=
  if s.pendingReconnect = true then ChannelState.Reconnecting
  else if s.isConnected = true then ChannelState.Open
  else ChannelState.Closed

/-- Applies `n` consecutive abnormal closures (code 1006) with a session active. -/
def closeN (n : Nat) (s : Ch) : Ch :=
  (List.replicate n (1006 : Nat)).foldl (fun st code => onClose true code st) s

end WebPlayer

namespace Extension

/-- The constant `this.maxReconnectAttempts = 5` (background.js, VideoProcessor
constructor). -/
def maxReconnectAttempts : Nat := 5

/-- The mutable state of one extension `VideoProcessor` instance
(background.js content-script section): its settings object, skip state,
skip history, pending cool-down timeout, the video element's observable
state, the classification Map, the sampler's `lastProcessedTime`, the
socket's open flag, the reconnection counter, the log of every scheduled
reconnection delay, and whether `showError` has been called. -/
structure State where
  settings : SkipSettings
  isSkipping : Bool
  skipHistory : List SkipEvent
  cooldownTimer : Option ℚ
  currentTime : ℚ
  duration : ℚ
  paused : Bool
  classifications : Store
  lastProcessedTime : ℚ
  wsOpen : Bool
  reconnectAttempts : Nat
  reconnectDelays : List ℚ
  errorSurfaced : Bool

/-- Embedding of `VideoProcessor.skipNSFWContent` (background.js lines 374-405): only
the `isSkipping` reentrancy guard lives here (the policy checks live in
the caller `handleClassification`).  On firing: record the skip event,
seek to `min(currentTime + skipDuration, duration - 1)` and schedule the
1000 ms timeout clearing `isSkipping`.  The `showSkipOverlay` call is
rendering only (see `updateOverlayDisplay`). -/
def skipNSFWContent (c : Classification) (s : State) : State :=
  if s.isSkipping = true then s
  else
    let fromTime := s.currentTime
    let skipToTime := min (fromTime + s.settings.skipDuration) (s.duration - 1)
    { s with
      isSkipping := true
      skipHistory := s.skipHistory ++
        [{ fromTime := fromTime, toTime := skipToTime,
           confidence := c.confidence, label := c.label }]
      currentTime := skipToTime
      cooldownTimer := some 1000 }

/-- Embedding of `VideoProcessor.handleClassification` (background.js lines 358-372):
store the record under its quantized timestamp, redraw the overlay
(rendering only, see `updateOverlayDisplay`), then
`if (is_nsfw && settings.enabled && confidence > settings.confidenceThreshold)`
— note the strict comparison — perform the skip. -/
def handleClassification (c : Classification) (s : State) : State :=
  let s1 := { s with classifications := put s.classifications c }
  if c.is_nsfw = true ∧ s.settings.enabled = true ∧
      s.settings.confidenceThreshold < c.confidence then
    skipNSFWContent c s1
  else s1

/-- Embedding of `VideoProcessor.handleServerMessage` (background.js lines 343-356):
dispatch on the `type` discriminator; `error` calls `showError`,
`connection_established` only logs, unrecognized types are ignored. -/
def handleServerMessage (m : Message) (s : State) : State :=
  match m with
  | Message.classification c => handleClassification c s
  | Message.error _ => { s with errorSurfaced := true }
  | _ => s

/-- The extension's `ws.onmessage` handler (background.js lines 311-313):
`this.handleServerMessage(JSON.parse(event.data))` with no try/catch, so
a payload that fails to parse throws out of the handler before any state
is touched — embedded as `none`. -/
def onmessage (raw : Option Message) (s : State) : Option State :=
  match raw with
  | none => none
  | some m => some (handleServerMessage m s)

/-- Embedding of `VideoProcessor.processCurrentFrame` (background.js lines 500-517):
return early if mid-skip; if the quantized time differs from
`lastProcessedTime`, record the new bucket and, when the socket is OPEN,
send a `process_frame` request carrying the raw current time. -/
def processCurrentFrame (s : State) : Option OutMsg × State :=
  if s.isSkipping = true then (none, s)
  else
    let timeKey := quantize s.currentTime
    if timeKey ≠ s.lastProcessedTime then
      let s1 := { s with lastProcessedTime := timeKey }
      if s.wsOpen = true then (some (OutMsg.process_frame s.currentTime), s1)
      else (none, s1)
    else (none, s)

/-- One firing of the 500 ms sampling interval installed by
`startFrameProcessing` (background.js lines 483-491):
`if (!video.paused && ws && ws.readyState === OPEN) processCurrentFrame()`. -/
def intervalTick (s : State) : Option OutMsg × State :=
  if s.paused = false ∧ s.wsOpen = true then processCurrentFrame s
  else (none, s)

/-- The `'seeked'` listener installed by `setupVideoListeners`
(background.js lines 287-289): `this.lastProcessedTime = -1`. -/
def onSeeked (s : State) : State := { s with lastProcessedTime := -1 }

/-- Embedding of `VideoProcessor.handleDisconnection` (background.js lines 329-341):
while attempts remain, increment the counter and schedule a reconnection
after `2000 * reconnectAttempts` ms (linear backoff); once the budget is
exhausted, surface an error and schedule nothing. -/
def handleDisconnection (s : State) : State :=
  if s.reconnectAttempts < maxReconnectAttempts then
    let a := s.reconnectAttempts + 1
    { s with reconnectAttempts := a,
             reconnectDelays := s.reconnectDelays ++ [2000 * (a : ℚ)] }
  else { s with errorSurfaced := true }

/-- Embedding of `ws.onopen` (background.js lines 301-309): reset the reconnection
counter (and send the announce message, not modelled in the state). -/
def onOpen (s : State) : State :=
  { s with reconnectAttempts := 0, wsOpen := true }

/-- Embedding of `ws.onclose` (background.js lines 315-318): the close code is ignored
entirely — every closure, clean or abnormal, calls `handleDisconnection`. -/
def onClose (_code : Nat) (s : State) : State :=
  handleDisconnection { s with wsOpen := false }

/-- Embedding of `VideoProcessor.updateOverlayDisplay` (background.js lines 407-418):
clear the canvas, then draw either the skip overlay (full-canvas 80 %
black fill, centered text, spinner — `drawSkipOverlay`) when mid-skip, or
the classification overlay (`drawClassificationOverlay`) otherwise. -/
def updateOverlayDisplay (c : Classification) (s : State) : List DrawCmd :=
  DrawCmd.clear ::
    (if s.isSkipping = true then
      [DrawCmd.fullFrameFill, DrawCmd.skipText, DrawCmd.spinner]
    else
      [DrawCmd.classText c.label c.confidence c.is_nsfw,
       DrawCmd.confBar c.confidence c.is_nsfw])

/-- Applies `n` consecutive closures (code 1006) with no intervening open. -/
def closeN (n : Nat) (s : State) : State :=
  (List.replicate n (1006 : Nat)).foldl (fun st code => onClose code st) s

/-- The setTimeout callback scheduled by `skipNSFWContent`
(background.js lines 400-402): `this.isSkipping = false`. -/
def cooldownFire (s : State) : State :=
  { s with isSkipping := false, cooldownTimer := none }

end Extension

/-
Concrete fixtures used by witnesses and counterexamples.
-/

/-- The reference policy: the default settings object in both sources
(enabled, 5 s skip, 0.7 threshold, 1 s buffer). -/
def refSettings : SkipSettings :=
  { enabled := true, skipDuration := 5, confidenceThreshold := 7 / 10,
    bufferTime := 1 }

/-- A web player in the Idle state, playing at 10 s of a 100 s video with
an open channel and an empty store. -/
def wpIdle : WebPlayer.State :=
  { isSkipping := false, skipHistory := [], cooldownTimer := none,
    currentTime := 10, duration := 100, paused := false,
    classifications := emptyStore, currentClassification := none,
    videoInfo := none, errorMsg := none, lastProcessedTime := -1,
    wsOpen := true, isConnected := true }

/-- An extension processor in the Idle state, playing at 10 s of a 100 s
video with an open channel, an empty store and a fresh reconnect budget. -/
def extIdle : Extension.State :=
  { settings := refSettings, isSkipping := false, skipHistory := [],
    cooldownTimer := none, currentTime := 10, duration := 100,
    paused := false, classifications := emptyStore, lastProcessedTime := -1,
    wsOpen := true, reconnectAttempts := 0, reconnectDelays := [],
    errorSurfaced := false }

/-- A flagged boundary classification whose confidence equals the
reference threshold exactly. -/
def boundaryClass : Classification :=
  { timestamp := 10, confidence := 7 / 10, label := "nsfw", is_nsfw := true }

/-- A flagged high-confidence classification at 10 s. -/
def flaggedClass : Classification :=
  { timestamp := 10, confidence := 9 / 10, label := "nsfw", is_nsfw := true }

/-- A web player in Idle, playing at 4.5 s of a 5 s video: the playhead is
already past `duration - 1`. -/
def wpNearEnd : WebPlayer.State :=
  { wpIdle with currentTime := 9 / 2, duration := 5 }

/-- A web player that has just signaled bucket 10.0. -/
def wpAfterSignal : WebPlayer.State := { wpIdle with lastProcessedTime := 10 }

/-- An extension processor that has just signaled bucket 10.0 and then
had its playhead moved to 10.2 s by a seek. -/
def extAfterSeek : Extension.State :=
  { extIdle with currentTime := 51 / 5, lastProcessedTime := 10 }

/-- A web player mid-skip whose store holds a record at the current
bucket (10.0). -/
def wpSkipping : WebPlayer.State :=
  { wpIdle with isSkipping := true,
                classifications := put emptyStore flaggedClass }

/-
Helper lemmas about the skip decision, shared by several claims.
-/

namespace WebPlayer

/-- When all firing conditions hold (enabled, flagged, confidence at or
above the threshold, not already skipping), the web player's
`handleClassification` stores the record and performs the skip. -/
theorem wp_handleClassification_fires (settings : SkipSettings)
    (c : Classification) (s : State) (he : settings.enabled = true)
    (hn : c.is_nsfw = true) (hc : settings.confidenceThreshold ≤ c.confidence)
    (hi : s.isSkipping = false) :
    handleClassification settings c s =
      { s with
        classifications := put s.classifications c
        isSkipping := true
        skipHistory := s.skipHistory ++
          [{ fromTime := s.currentTime,
             toTime := min (s.currentTime + settings.skipDuration) (s.duration - 1),
             confidence := c.confidence, label := c.label }]
        currentTime := min (s.currentTime + settings.skipDuration) (s.duration - 1)
        cooldownTimer := some 1000 } := by
  simp [handleClassification, skipNSFWContent, he, hn, hi, not_lt.mpr hc]

/-- If any firing condition fails, the classification only lands in the
store: no skip state, history, playback position or timer change. -/
theorem wp_handleClassification_no_fire (settings : SkipSettings)
    (c : Classification) (s : State)
    (h : settings.enabled = false ∨ c.is_nsfw = false ∨
         c.confidence < settings.confidenceThreshold ∨ s.isSkipping = true) :
    (handleClassification settings c s).isSkipping = s.isSkipping ∧
    (handleClassification settings c s).skipHistory = s.skipHistory ∧
    (handleClassification settings c s).currentTime = s.currentTime ∧
    (handleClassification settings c s).cooldownTimer = s.cooldownTimer := by
  unfold handleClassification skipNSFWContent
  rcases h with h | h | h | h <;> simp [h]

/-- Folding any sequence of classification arrivals over a mid-skip state
leaves the skip state, history and playback position untouched. -/
theorem wp_foldClassifications_mid_skip (settings : SkipSettings)
    (cs : List Classification) :
    ∀ s : State, s.isSkipping = true →
      (cs.foldl (fun st c => handleClassification settings c st) s).isSkipping = true ∧
      (cs.foldl (fun st c => handleClassification settings c st) s).skipHistory =
        s.skipHistory ∧
      (cs.foldl (fun st c => handleClassification settings c st) s).currentTime =
        s.currentTime := by
  induction cs with
  | nil => intro s hs; exact ⟨hs, rfl, rfl⟩
  | cons c cs ih =>
    intro s hs
    have h1 := wp_handleClassification_no_fire settings c s (Or.inr (Or.inr (Or.inr hs)))
    have h2 := ih (handleClassification settings c s) (h1.1.trans hs)
    refine ⟨h2.1, h2.2.1.trans h1.2.1, h2.2.2.trans h1.2.2.1⟩

end WebPlayer

namespace Extension

/-- When the extension's firing conditions hold (note the strict
comparison), `handleClassification` performs the skip. -/
theorem ext_handleClassification_fires (c : Classification) (s : State)
    (he : s.settings.enabled = true) (hn : c.is_nsfw = true)
    (hc : s.settings.confidenceThreshold < c.confidence)
    (hi : s.isSkipping = false) :
    handleClassification c s =
      { s with
        classifications := put s.classifications c
        isSkipping := true
        skipHistory := s.skipHistory ++
          [{ fromTime := s.currentTime,
             toTime := min (s.currentTime + s.settings.skipDuration) (s.duration - 1),
             confidence := c.confidence, label := c.label }]
        currentTime := min (s.currentTime + s.settings.skipDuration) (s.duration - 1)
        cooldownTimer := some 1000 } := by
  simp [handleClassification, skipNSFWContent, he, hn, hi, hc]

/-- If any of the extension's firing conditions fails, the classification
only lands in the store. -/
theorem ext_handleClassification_no_fire (c : Classification) (s : State)
    (h : s.settings.enabled = false ∨ c.is_nsfw = false ∨
         c.confidence ≤ s.settings.confidenceThreshold ∨ s.isSkipping = true) :
    (handleClassification c s).isSkipping = s.isSkipping ∧
    (handleClassification c s).skipHistory = s.skipHistory ∧
    (handleClassification c s).currentTime = s.currentTime ∧
    (handleClassification c s).cooldownTimer = s.cooldownTimer := by
  unfold handleClassification skipNSFWContent
  rcases h with h | h | h | h
  · simp [h]
  · simp [h]
  · simp [not_lt.mpr h]
  · simp [h]

/-- Folding any sequence of classification arrivals over a mid-skip state
leaves the skip state, history and playback position untouched. -/
theorem ext_foldClassifications_mid_skip (cs : List Classification) :
    ∀ s : State, s.isSkipping = true →
      (cs.foldl (fun st c => handleClassification c st) s).isSkipping = true ∧
      (cs.foldl (fun st c => handleClassification c st) s).skipHistory =
        s.skipHistory ∧
      (cs.foldl (fun st c => handleClassification c st) s).currentTime =
        s.currentTime := by
  induction cs with
  | nil => intro s hs; exact ⟨hs, rfl, rfl⟩
  | cons c cs ih =>
    intro s hs
    have h1 := ext_handleClassification_no_fire c s (Or.inr (Or.inr (Or.inr hs)))
    have h2 := ih (handleClassification c s) (h1.1.trans hs)
    refine ⟨h2.1, h2.2.1.trans h1.2.1, h2.2.2.trans h1.2.2.1⟩

end Extension

/-
Claim C1 — the Idle → Skipping transition.
-/

/-- C1, counterexample.  The claim states the transition fires exactly
when policy.enabled, classification.flagged and classification.confidence
≥ policy.confidenceThreshold hold in the Idle state.  In the extension's
`handleClassification` (background.js line 369) the comparison is strict
(`confidence > threshold`): a flagged classification whose confidence
equals the threshold satisfies every condition of the claim, yet no
transition occurs and no SkipEvent is appended. -/
theorem c1_skip_transition_counterexample :
    extIdle.settings.enabled = true ∧ boundaryClass.is_nsfw = true ∧
    extIdle.settings.confidenceThreshold ≤ boundaryClass.confidence ∧
    extIdle.isSkipping = false ∧
    (Extension.handleClassification boundaryClass extIdle).isSkipping = false ∧
    (Extension.handleClassification boundaryClass extIdle).skipHistory = [] ∧
    (Extension.handleClassification boundaryClass extIdle).currentTime =
      extIdle.currentTime := by
  refine ⟨rfl, rfl, by norm_num [extIdle, refSettings, boundaryClass], rfl, ?_, ?_, ?_⟩ <;>
    norm_num [Extension.handleClassification, Extension.skipNSFWContent, extIdle,
      boundaryClass, refSettings]

/-- C1, amended.  In the web player the Idle → Skipping transition fires
exactly when policy.enabled, classification.flagged, confidence ≥
threshold and the state is Idle; in the extension the confidence
comparison is strict (confidence > threshold).  On the transition a
SkipEvent is appended, a seek to min(currentTime + skipDuration,
duration − 1) is commanded and the fixed 1000 ms cool-down timer is
scheduled; otherwise the skip state, history, playback position and timer
are untouched.  Classification arrivals during the cool-down are ignored
(not queued), and the cool-down callback returns the state to Idle
regardless of how many arrived. -/
theorem c1_skip_transition :
    (∀ (settings : SkipSettings) (c : Classification) (s : WebPlayer.State),
      settings.enabled = true → c.is_nsfw = true →
      settings.confidenceThreshold ≤ c.confidence → s.isSkipping = false →
      (WebPlayer.handleClassification settings c s).isSkipping = true ∧
      (WebPlayer.handleClassification settings c s).skipHistory =
        s.skipHistory ++
          [{ fromTime := s.currentTime,
             toTime := min (s.currentTime + settings.skipDuration) (s.duration - 1),
             confidence := c.confidence, label := c.label }] ∧
      (WebPlayer.handleClassification settings c s).currentTime =
        min (s.currentTime + settings.skipDuration) (s.duration - 1) ∧
      (WebPlayer.handleClassification settings c s).cooldownTimer = some 1000) ∧
    (∀ (settings : SkipSettings) (c : Classification) (s : WebPlayer.State),
      settings.enabled = false ∨ c.is_nsfw = false ∨
        c.confidence < settings.confidenceThreshold ∨ s.isSkipping = true →
      (WebPlayer.handleClassification settings c s).isSkipping = s.isSkipping ∧
      (WebPlayer.handleClassification settings c s).skipHistory = s.skipHistory ∧
      (WebPlayer.handleClassification settings c s).currentTime = s.currentTime) ∧
    (∀ (c : Classification) (s : Extension.State),
      s.settings.enabled = true → c.is_nsfw = true →
      s.settings.confidenceThreshold < c.confidence → s.isSkipping = false →
      (Extension.handleClassification c s).isSkipping = true ∧
      (Extension.handleClassification c s).skipHistory =
        s.skipHistory ++
          [{ fromTime := s.currentTime,
             toTime := min (s.currentTime + s.settings.skipDuration) (s.duration - 1),
             confidence := c.confidence, label := c.label }] ∧
      (Extension.handleClassification c s).currentTime =
        min (s.currentTime + s.settings.skipDuration) (s.duration - 1) ∧
      (Extension.handleClassification c s).cooldownTimer = some 1000) ∧
    (∀ (c : Classification) (s : Extension.State),
      s.settings.enabled = false ∨ c.is_nsfw = false ∨
        c.confidence ≤ s.settings.confidenceThreshold ∨ s.isSkipping = true →
      (Extension.handleClassification c s).isSkipping = s.isSkipping ∧
      (Extension.handleClassification c s).skipHistory = s.skipHistory ∧
      (Extension.handleClassification c s).currentTime = s.currentTime) ∧
    (∀ (settings : SkipSettings) (cs : List Classification) (s : WebPlayer.State),
      s.isSkipping = true →
      (WebPlayer.step settings WebPlayer.Event.cooldownFire
        (cs.foldl (fun st c => WebPlayer.handleClassification settings c st) s)).isSkipping
          = false ∧
      (cs.foldl (fun st c => WebPlayer.handleClassification settings c st) s).isSkipping
          = true ∧
      (cs.foldl (fun st c => WebPlayer.handleClassification settings c st) s).skipHistory
          = s.skipHistory) ∧
    (∀ (cs : List Classification) (s : Extension.State),
      s.isSkipping = true →
      (Extension.cooldownFire
        (cs.foldl (fun st c => Extension.handleClassification c st) s)).isSkipping
          = false ∧
      (cs.foldl (fun st c => Extension.handleClassification c st) s).isSkipping = true ∧
      (cs.foldl (fun st c => Extension.handleClassification c st) s).skipHistory
          = s.skipHistory) := by
  refine ⟨?_, ?_, ?_, ?_, ?_, ?_⟩
  · intro settings c s he hn hc hi
    rw [WebPlayer.wp_handleClassification_fires settings c s he hn hc hi]
    exact ⟨rfl, rfl, rfl, rfl⟩
  · intro settings c s h
    have := WebPlayer.wp_handleClassification_no_fire settings c s h
    exact ⟨this.1, this.2.1, this.2.2.1⟩
  · intro c s he hn hc hi
    rw [Extension.ext_handleClassification_fires c s he hn hc hi]
    exact ⟨rfl, rfl, rfl, rfl⟩
  · intro c s h
    have := Extension.ext_handleClassification_no_fire c s h
    exact ⟨this.1, this.2.1, this.2.2.1⟩
  · intro settings cs s hs
    have := WebPlayer.wp_foldClassifications_mid_skip settings cs s hs
    exact ⟨rfl, this.1, this.2.1⟩
  · intro cs s hs
    have := Extension.ext_foldClassifications_mid_skip cs s hs
    exact ⟨rfl, this.1, this.2.1⟩

/-- C1, witness: the amended theorem applied at the reference policy, a
0.9-confidence flagged classification and the concrete Idle fixtures. -/
theorem c1_skip_transition_witness :
    (WebPlayer.handleClassification refSettings flaggedClass wpIdle).isSkipping = true ∧
    (Extension.handleClassification flaggedClass extIdle).isSkipping = true ∧
    (Extension.cooldownFire
      ([flaggedClass].foldl (fun st c => Extension.handleClassification c st)
        (Extension.handleClassification flaggedClass extIdle))).isSkipping = false := by
  refine ⟨?_, ?_, ?_⟩
  · exact (c1_skip_transition.1 refSettings flaggedClass wpIdle rfl rfl
      (by norm_num [refSettings, flaggedClass]) rfl).1
  · exact (c1_skip_transition.2.2.1 flaggedClass extIdle rfl rfl
      (by norm_num [extIdle, refSettings, flaggedClass]) rfl).1
  · exact (c1_skip_transition.2.2.2.2.2 [flaggedClass]
      (Extension.handleClassification flaggedClass extIdle)
      (c1_skip_transition.2.2.1 flaggedClass extIdle rfl rfl
        (by norm_num [extIdle, refSettings, flaggedClass]) rfl).1).1

/-
Claim C2 — the reconnection budget and backoff.
-/

/-- Unrolling one abnormal closure off the end of `closeN`. -/
theorem Extension.ext_closeN_succ (n : Nat) (s : Extension.State) :
    Extension.closeN (n + 1) s = Extension.onClose 1006 (Extension.closeN n s) := by
  unfold Extension.closeN
  rw [List.replicate_succ', List.foldl_append]
  rfl

/-- Unrolling one abnormal closure off the end of the web player's
`closeN`. -/
theorem WebPlayer.wp_closeN_succ (n : Nat) (s : WebPlayer.Ch) :
    WebPlayer.closeN (n + 1) s = WebPlayer.onClose true 1006 (WebPlayer.closeN n s) := by
  unfold WebPlayer.closeN
  rw [List.replicate_succ', List.foldl_append]
  rfl

/-- After `n` consecutive closures with no intervening open, starting from
a fresh reconnect budget, the extension has scheduled exactly
`min n 5` reconnections with delays `2000·1 … 2000·(min n 5)`, its counter
reads `min n 5`, and an error has been surfaced exactly when a sixth
closure arrived. -/
theorem Extension.ext_closeN_spec (s : Extension.State) (n : Nat)
    (h : s.reconnectAttempts = 0) :
    (Extension.closeN n s).reconnectDelays =
      s.reconnectDelays ++
        (List.range (min n 5)).map (fun i => 2000 * ((i + 1 : Nat) : ℚ)) ∧
    (Extension.closeN n s).reconnectAttempts = min n 5 ∧
    ((Extension.closeN n s).errorSurfaced =
      if 5 < n then true else s.errorSurfaced) := by
  induction n with
  | zero => simp [Extension.closeN, h]
  | succ n ih =>
    rw [Extension.ext_closeN_succ]
    rcases ih with ⟨hd, ha, he⟩
    by_cases hn : n < 5
    · have hmin : min n 5 = n := by omega
      have hmin1 : min (n + 1) 5 = n + 1 := by omega
      refine ⟨?_, ?_, ?_⟩
      · simp only [Extension.onClose, Extension.handleDisconnection,
          Extension.maxReconnectAttempts, ha, hmin, hn, if_pos, List.append_assoc,
          hd, hmin1]
        rw [List.range_succ]
        simp
      · simp [Extension.onClose, Extension.handleDisconnection,
          Extension.maxReconnectAttempts, ha, hmin, hn, hmin1]
      · have : ¬ 5 < n + 1 := by omega
        have hnn : ¬ 5 < n := by omega
        simp only [Extension.onClose, Extension.handleDisconnection,
          Extension.maxReconnectAttempts, ha, hmin, hn, if_pos, this, if_neg,
          if_false] at he ⊢
        simpa [hnn] using he
    · have hmin : min n 5 = 5 := by omega
      have hmin1 : min (n + 1) 5 = 5 := by omega
      have hlt : ¬ (5 : Nat) < 5 := by omega
      refine ⟨?_, ?_, ?_⟩
      · simp [Extension.onClose, Extension.handleDisconnection,
          Extension.maxReconnectAttempts, ha, hmin, hmin1, hd]
      · simp [Extension.onClose, Extension.handleDisconnection,
          Extension.maxReconnectAttempts, ha, hmin, hmin1]
      · have h1 : 5 < n + 1 := by omega
        simp [Extension.onClose, Extension.handleDisconnection,
          Extension.maxReconnectAttempts, ha, hmin, h1]

/-- The web player schedules one fixed-delay (3000 ms) reconnection per
abnormal closure, without any attempt bound. -/
theorem WebPlayer.wp_closeN_spec (s : WebPlayer.Ch) (n : Nat) :
    (WebPlayer.closeN n s).reconnectDelays =
      s.reconnectDelays ++ List.replicate n (3000 : ℚ) := by
  induction n with
  | zero => simp [WebPlayer.closeN]
  | succ n ih =>
    rw [WebPlayer.wp_closeN_succ, List.replicate_succ']
    simp [WebPlayer.onClose, ih]

/-- C2, counterexample.  The claim states the ChannelManager never
schedules a sixth reconnection after five consecutive abnormal closures
and uses a linear backoff.  The web player's `ws.onclose` (part_001 lines
409-419) has no attempt counter: six consecutive abnormal closures (code
1006) schedule six reconnections, each after the same fixed 3000 ms delay. -/
theorem c2_reconnect_budget_counterexample :
    (WebPlayer.closeN 6
      { isConnected := false, pendingReconnect := false,
        reconnectDelays := [] }).reconnectDelays =
      [3000, 3000, 3000, 3000, 3000, 3000] := by
  norm_num [WebPlayer.closeN, WebPlayer.onClose, List.replicate]

/-- C2, amended.  The extension's `handleDisconnection` satisfies the
claim: starting from a fresh budget, `n` consecutive closures with no
intervening Open schedule exactly `min n 5` reconnections with linear
backoff delays `2000·attempt`, the sixth closure surfaces an error and
schedules nothing, and a successful open resets the budget.  The web
player's `ws.onclose`, by contrast, schedules an unbounded number of
reconnections, one per abnormal closure, each after a fixed 3000 ms delay. -/
theorem c2_reconnect_budget :
    (∀ (s : Extension.State) (n : Nat), s.reconnectAttempts = 0 →
      (Extension.closeN n s).reconnectDelays =
        s.reconnectDelays ++
          (List.range (min n 5)).map (fun i => 2000 * ((i + 1 : Nat) : ℚ)) ∧
      (Extension.closeN n s).reconnectAttempts = min n 5 ∧
      ((Extension.closeN n s).errorSurfaced =
        if 5 < n then true else s.errorSurfaced)) ∧
    (∀ s : Extension.State, (Extension.onOpen s).reconnectAttempts = 0) ∧
    (∀ (s : WebPlayer.Ch) (n : Nat),
      (WebPlayer.closeN n s).reconnectDelays =
        s.reconnectDelays ++ List.replicate n (3000 : ℚ)) :=
  ⟨fun s n h => Extension.ext_closeN_spec s n h,
   fun _ => rfl,
   fun s n => WebPlayer.wp_closeN_spec s n⟩

/-- C2, witness: six consecutive abnormal closures from the fresh
extension fixture yield exactly the five linear-backoff delays and a
surfaced error. -/
theorem c2_reconnect_budget_witness :
    (Extension.closeN 6 extIdle).reconnectDelays =
      [2000, 4000, 6000, 8000, 10000] ∧
    (Extension.closeN 6 extIdle).errorSurfaced = true := by
  have h := c2_reconnect_budget.1 extIdle 6 rfl
  refine ⟨?_, ?_⟩
  · rw [h.1]
    show [] ++ _ = _
    norm_num [List.range_succ]
  · rw [h.2.2]
    norm_num

/-
Claim C3 — the store lookup window.
-/

/-- Store invariant: every key a built store maps holds a record whose
quantized raw timestamp equals the key (spec §3, ClassificationStore). -/
theorem buildStore_key (cs : List Classification) :
    ∀ (k : ℚ) (c : Classification),
      buildStore cs k = some c → k = quantize c.timestamp := by
  suffices h : ∀ store : Store,
      (∀ k c, store k = some c → k = quantize c.timestamp) →
      ∀ k c, (cs.foldl put store) k = some c → k = quantize c.timestamp by
    refine h emptyStore ?_
    intro k c hk
    simp [emptyStore] at hk
  induction cs with
  | nil => intro store h; exact h
  | cons c cs ih =>
    intro store h
    refine ih (put store c) ?_
    intro k d hk
    unfold put at hk
    split_ifs at hk with hkey
    · obtain rfl : c = d := Option.some.inj hk
      exact hkey
    · exact h k d hk

/-- If the lookback loop returns a record, it came from the first
populated bucket among the five checked offsets. -/
theorem lookupRelevant_finds (store : Store) (t : ℚ) (r : Classification)
    (h : lookupRelevant store t = some r) :
    ∃ i : Nat, i ≤ 4 ∧ store (bucketBefore t i) = some r ∧
      ∀ j : Nat, j < i → store (bucketBefore t j) = none := by
  unfold lookupRelevant at h
  rcases h0 : store (bucketBefore t 0) with _ | c0
  · rcases h1 : store (bucketBefore t 1) with _ | c1
    · rcases h2 : store (bucketBefore t 2) with _ | c2
      · rcases h3 : store (bucketBefore t 3) with _ | c3
        · simp only [h0, h1, h2, h3] at h
          exact ⟨4, by omega, h, fun j hj => by interval_cases j <;> assumption⟩
        · simp only [h0, h1, h2, h3] at h
          exact ⟨3, by omega, h3.trans h,
            fun j hj => by interval_cases j <;> assumption⟩
      · simp only [h0, h1, h2] at h
        exact ⟨2, by omega, h2.trans h,
          fun j hj => by interval_cases j <;> assumption⟩
    · simp only [h0, h1] at h
      exact ⟨1, by omega, h1.trans h,
        fun j hj => by interval_cases j; assumption⟩
  · simp only [h0] at h
    exact ⟨0, by omega, h0.trans h, fun j hj => by omega⟩

/-- When all five window buckets are empty the lookback loop returns
nothing. -/
theorem lookupRelevant_empty (store : Store) (t : ℚ)
    (h : ∀ i : Nat, i ≤ 4 → store (bucketBefore t i) = none) :
    lookupRelevant store t = none := by
  unfold lookupRelevant
  simp only [h 0 (by omega), h 1 (by omega), h 2 (by omega), h 3 (by omega),
    h 4 (by omega)]

/-- Every checked bucket lies at or before the quantized query time. -/
theorem bucketBefore_le (t : ℚ) (i : Nat) : bucketBefore t i ≤ quantize t := by
  unfold bucketBefore
  have h : (0 : ℚ) ≤ (i : ℚ) * (1 / 2) := by positivity
  linarith

/-- Every checked bucket lies at most 4 buckets (2 s) before the
quantized query time. -/
theorem bucketBefore_ge (t : ℚ) (i : Nat) (h : i ≤ 4) :
    quantize t - 2 ≤ bucketBefore t i := by
  unfold bucketBefore
  have h4 : (i : ℚ) ≤ 4 := by exact_mod_cast h
  linarith

/-- C3.  For every store contents built from any sequence of puts and
every query time, the lookback of `updateOverlay` returns the record of
the nearest non-empty bucket at or before `quantize t` within the 4-bucket
lookback window: the returned record's bucket never exceeds `quantize t`
and never lies more than 4 buckets (2 s) below it, `none` is returned when
all window buckets are empty, the window is anchored at the same bucket
function the sampler uses, and the concrete scenario — query at `t = 11.3`
with only bucket 10.0 populated — resolves to the bucket-10.0 record
(10.0 lies inside the window 9.0 … 11.0). -/
theorem c3_lookup_window :
    (∀ (cs : List Classification) (t : ℚ) (r : Classification),
      lookupRelevant (buildStore cs) t = some r →
      ∃ i : Nat, i ≤ 4 ∧ buildStore cs (bucketBefore t i) = some r ∧
        (∀ j : Nat, j < i → buildStore cs (bucketBefore t j) = none) ∧
        quantize r.timestamp = bucketBefore t i ∧
        quantize r.timestamp ≤ quantize t ∧
        quantize t - 2 ≤ quantize r.timestamp) ∧
    (∀ (store : Store) (t : ℚ),
      (∀ i : Nat, i ≤ 4 → store (bucketBefore t i) = none) →
      lookupRelevant store t = none) ∧
    (∀ t : ℚ, bucketBefore t 0 = quantize t) ∧
    lookupRelevant (buildStore [flaggedClass]) (113 / 10) = some flaggedClass := by
  refine ⟨?_, lookupRelevant_empty, ?_, ?_⟩
  · intro cs t r h
    obtain ⟨i, hi, hit, hfirst⟩ := lookupRelevant_finds (buildStore cs) t r h
    have hkey := (buildStore_key cs (bucketBefore t i) r hit).symm
    exact ⟨i, hi, hit, hfirst, hkey,
      hkey ▸ bucketBefore_le t i, hkey ▸ bucketBefore_ge t i hi⟩
  · intro t
    unfold bucketBefore
    norm_num
  · norm_num [lookupRelevant, buildStore, put, emptyStore, bucketBefore,
      quantize, flaggedClass]

/-- C3, witness: the window theorem applied at the concrete scenario store
(only bucket 10.0 populated, query 11.3) and at the empty store. -/
theorem c3_lookup_window_witness :
    lookupRelevant (buildStore [flaggedClass]) (113 / 10) = some flaggedClass ∧
    lookupRelevant emptyStore (113 / 10) = none := by
  refine ⟨c3_lookup_window.2.2.2, ?_⟩
  exact c3_lookup_window.2.1 emptyStore (113 / 10) (fun i hi => rfl)

/-
Claim C4 — the SkipEvent clamp invariants.
-/

/-- C4, counterexample.  The claim states `toTime ≥ fromTime` always
holds.  With the reference policy (skipDuration 5), a flagged
0.9-confidence classification arriving at playback position 4.5 s of a
5 s video fires a skip whose recorded event has `fromTime = 4.5` and
`toTime = min(4.5 + 5, 5 − 1) = 4 < 4.5` — a backward clamp, exactly the
spec's own "duration too short" edge case. -/
theorem c4_skip_clamp_counterexample :
    (WebPlayer.handleClassification refSettings flaggedClass wpNearEnd).skipHistory =
      [{ fromTime := 9 / 2, toTime := 4, confidence := 9 / 10, label := "nsfw" }] ∧
    ¬ ((9 / 2 : ℚ) ≤ 4) := by
  constructor
  · norm_num [WebPlayer.handleClassification, WebPlayer.skipNSFWContent,
      wpNearEnd, wpIdle, refSettings, flaggedClass, min_def]
  · norm_num

/-- C4, amended.  In both implementations every recorded SkipEvent has
`toTime = min(fromTime + policy.skipDuration, mediaDuration − 1)`, hence
`toTime ≤ duration − 1` always holds; `toTime ≥ fromTime` holds whenever
the skip duration is non-negative and the playhead had not yet passed
`duration − 1` (otherwise the seek is the clamped, possibly backward,
value — the spec's acknowledged no-op edge case). -/
theorem c4_skip_clamp :
    (∀ (settings : SkipSettings) (c : Classification) (s : WebPlayer.State),
      settings.enabled = true → c.is_nsfw = true →
      settings.confidenceThreshold ≤ c.confidence → s.isSkipping = false →
      (WebPlayer.handleClassification settings c s).skipHistory =
        s.skipHistory ++
          [{ fromTime := s.currentTime,
             toTime := min (s.currentTime + settings.skipDuration) (s.duration - 1),
             confidence := c.confidence, label := c.label }] ∧
      min (s.currentTime + settings.skipDuration) (s.duration - 1) ≤
        s.duration - 1 ∧
      (0 ≤ settings.skipDuration → s.currentTime ≤ s.duration - 1 →
        s.currentTime ≤
          min (s.currentTime + settings.skipDuration) (s.duration - 1))) ∧
    (∀ (c : Classification) (s : Extension.State),
      s.settings.enabled = true → c.is_nsfw = true →
      s.settings.confidenceThreshold < c.confidence → s.isSkipping = false →
      (Extension.handleClassification c s).skipHistory =
        s.skipHistory ++
          [{ fromTime := s.currentTime,
             toTime := min (s.currentTime + s.settings.skipDuration) (s.duration - 1),
             confidence := c.confidence, label := c.label }] ∧
      min (s.currentTime + s.settings.skipDuration) (s.duration - 1) ≤
        s.duration - 1 ∧
      (0 ≤ s.settings.skipDuration → s.currentTime ≤ s.duration - 1 →
        s.currentTime ≤
          min (s.currentTime + s.settings.skipDuration) (s.duration - 1))) := by
  constructor
  · intro settings c s he hn hc hi
    rw [WebPlayer.wp_handleClassification_fires settings c s he hn hc hi]
    exact ⟨rfl, min_le_right _ _, fun hd hf => le_min (by linarith) hf⟩
  · intro c s he hn hc hi
    rw [Extension.ext_handleClassification_fires c s he hn hc hi]
    exact ⟨rfl, min_le_right _ _, fun hd hf => le_min (by linarith) hf⟩

/-- C4, witness: the clamp theorem applied at the reference policy and the
Idle fixture (skip from 10 s to 15 s of a 100 s video). -/
theorem c4_skip_clamp_witness :
    (WebPlayer.handleClassification refSettings flaggedClass wpIdle).skipHistory =
      [{ fromTime := 10, toTime := 15, confidence := 9 / 10, label := "nsfw" }] ∧
    (10 : ℚ) ≤ 15 ∧ (15 : ℚ) ≤ 100 - 1 := by
  have h := c4_skip_clamp.1 refSettings flaggedClass wpIdle rfl rfl
    (by norm_num [refSettings, flaggedClass]) rfl
  refine ⟨?_, by norm_num, by norm_num⟩
  have h1 := h.1
  rw [h1]
  norm_num [wpIdle, refSettings, flaggedClass, min_def]

/-
Claim C5 — clean closure (code 1000).
-/

/-- C5, counterexample.  The claim states that on close code 1000 no
reconnection attempt is ever scheduled.  The extension's `ws.onclose`
(background.js lines 315-318) never inspects the close code: a clean
code-1000 closure of the fresh fixture schedules a 2000 ms reconnection
and bumps the attempt counter. -/
theorem c5_clean_close_counterexample :
    (Extension.onClose 1000 extIdle).reconnectDelays = [2000] ∧
    (Extension.onClose 1000 extIdle).reconnectAttempts = 1 := by
  constructor <;>
    norm_num [Extension.onClose, Extension.handleDisconnection,
      Extension.maxReconnectAttempts, extIdle]

/-- C5, amended.  In the web player, a closure with code 1000 never
schedules a reconnection, for every session state: the delay log is
unchanged, no reconnect timer is pending, and (when no reconnect timer
was already pending) the derived channel state is Closed, not
Reconnecting.  The extension's handler, by contrast, treats every close
code identically: a code-1000 closure behaves exactly like an abnormal
one, scheduling a reconnection whenever budget remains. -/
theorem c5_clean_close :
    (∀ (s : WebPlayer.Ch) (active : Bool),
      (WebPlayer.onClose active 1000 s).reconnectDelays = s.reconnectDelays ∧
      (WebPlayer.onClose active 1000 s).pendingReconnect = s.pendingReconnect ∧
      (WebPlayer.onClose active 1000 s).isConnected = false ∧
      (s.pendingReconnect = false →
        (WebPlayer.onClose active 1000 s).channelState = ChannelState.Closed)) ∧
    (∀ (code : Nat) (s : Extension.State),
      Extension.onClose code s = Extension.onClose 1000 s) ∧
    (∀ s : Extension.State, s.reconnectAttempts < 5 →
      (Extension.onClose 1000 s).reconnectDelays =
        s.reconnectDelays ++ [2000 * ((s.reconnectAttempts + 1 : Nat) : ℚ)]) := by
  refine ⟨?_, fun code s => rfl, ?_⟩
  · intro s active
    have h : ¬ ((1000 : Nat) ≠ 1000 ∧ active = true) := by simp
    refine ⟨?_, ?_, ?_, ?_⟩ <;>
      simp [WebPlayer.onClose, h, WebPlayer.Ch.channelState]
  · intro s h
    simp [Extension.onClose, Extension.handleDisconnection,
      Extension.maxReconnectAttempts, h]

/-- C5, witness: the theorem applied at a concrete connected web channel
and at the fresh extension fixture. -/
theorem c5_clean_close_witness :
    (WebPlayer.onClose true 1000
      { isConnected := true, pendingReconnect := false,
        reconnectDelays := [] }).channelState = ChannelState.Closed ∧
    (Extension.onClose 1000 extIdle).reconnectDelays = [2000 * ((1 : Nat) : ℚ)] := by
  constructor
  · exact ((c5_clean_close.1
      { isConnected := true, pendingReconnect := false, reconnectDelays := [] }
      true).2.2.2) rfl
  · exact c5_clean_close.2.2 extIdle (by norm_num [extIdle])

/-
Claim C6 — the sampler's new-bucket guard and the seek reset.
-/

/-- Quantization never produces a negative bucket for a non-negative
time (so the `-1` sentinel can never collide with a real bucket). -/
theorem quantize_nonneg (t : ℚ) (h : 0 ≤ t) : 0 ≤ quantize t := by
  unfold quantize
  have h2 : (0 : ℤ) ≤ ⌊t * 2⌋ := Int.floor_nonneg.mpr (by linarith)
  have h3 : (0 : ℚ) ≤ ((⌊t * 2⌋ : ℤ) : ℚ) := by exact_mod_cast h2
  linarith

/-- C6, counterexample.  The claim states that after every explicit seek
the last-signaled bucket is reset so the next qualifying tick is always
treated as new.  The web player installs no `seeked` handler: after
signaling bucket 10.0 and seeking to 10.2 s (same bucket), a fully
qualifying tick (playing, not skipping, channel open) emits nothing. -/
theorem c6_sampler_counterexample :
    (WebPlayer.step refSettings (WebPlayer.Event.seek (51 / 5))
        wpAfterSignal).lastProcessedTime = 10 ∧
    (WebPlayer.step refSettings (WebPlayer.Event.seek (51 / 5))
        wpAfterSignal).paused = false ∧
    (WebPlayer.step refSettings (WebPlayer.Event.seek (51 / 5))
        wpAfterSignal).isSkipping = false ∧
    (WebPlayer.step refSettings (WebPlayer.Event.seek (51 / 5))
        wpAfterSignal).wsOpen = true ∧
    (WebPlayer.processCurrentFrame
      (WebPlayer.step refSettings (WebPlayer.Event.seek (51 / 5))
        wpAfterSignal)).1 = none := by
  refine ⟨rfl, rfl, rfl, rfl, ?_⟩
  norm_num [WebPlayer.step, WebPlayer.processCurrentFrame, wpAfterSignal,
    wpIdle, quantize]

/-- If any disqualifying condition holds, the web player's sampler tick
emits nothing. -/
theorem WebPlayer.wp_processCurrentFrame_none (s : WebPlayer.State)
    (h : s.paused = true ∨ s.isSkipping = true ∨ s.wsOpen = false ∨
         quantize s.currentTime = s.lastProcessedTime) :
    (WebPlayer.processCurrentFrame s).1 = none := by
  unfold WebPlayer.processCurrentFrame
  rcases h with h | h | h | h <;> simp [h]

/-- If any disqualifying condition holds, the extension's sampling
interval emits nothing. -/
theorem Extension.ext_intervalTick_none (s : Extension.State)
    (h : s.paused = true ∨ s.isSkipping = true ∨ s.wsOpen = false ∨
         quantize s.currentTime = s.lastProcessedTime) :
    (Extension.intervalTick s).1 = none := by
  unfold Extension.intervalTick Extension.processCurrentFrame
  rcases h with h | h | h | h <;> simp [h]

/-- C6, amended.  In both implementations a tick emits a new-bucket
signal only if the media is playing, not mid-skip, the channel is open
and the computed bucket differs from the last one signaled.  The
extension's `seeked` handler resets the last bucket to the −1 sentinel,
after which the next qualifying tick (at a non-negative playhead) always
signals; the web player performs no reset on seek, so its post-seek tick
signals only when the bucket happens to differ. -/
theorem c6_sampler_guard :
    (∀ s : WebPlayer.State, (WebPlayer.processCurrentFrame s).1 ≠ none →
      s.paused = false ∧ s.isSkipping = false ∧ s.wsOpen = true ∧
      quantize s.currentTime ≠ s.lastProcessedTime) ∧
    (∀ s : Extension.State, (Extension.intervalTick s).1 ≠ none →
      s.paused = false ∧ s.isSkipping = false ∧ s.wsOpen = true ∧
      quantize s.currentTime ≠ s.lastProcessedTime) ∧
    (∀ s : Extension.State,
      (Extension.onSeeked s).lastProcessedTime = -1 ∧
      (0 ≤ s.currentTime → s.paused = false → s.isSkipping = false →
        s.wsOpen = true →
        (Extension.intervalTick (Extension.onSeeked s)).1 =
          some (OutMsg.process_frame s.currentTime))) ∧
    (∀ (settings : SkipSettings) (t : ℚ) (s : WebPlayer.State),
      (WebPlayer.step settings (WebPlayer.Event.seek t) s).lastProcessedTime =
        s.lastProcessedTime) := by
  refine ⟨?_, ?_, ?_, fun settings t s => rfl⟩
  · intro s h
    cases hp : s.paused with
    | true => exact absurd (WebPlayer.wp_processCurrentFrame_none s (Or.inl hp)) h
    | false =>
      cases hsk : s.isSkipping with
      | true =>
        exact absurd
          (WebPlayer.wp_processCurrentFrame_none s (Or.inr (Or.inl hsk))) h
      | false =>
        cases hw : s.wsOpen with
        | false =>
          exact absurd
            (WebPlayer.wp_processCurrentFrame_none s (Or.inr (Or.inr (Or.inl hw)))) h
        | true =>
          by_cases hq : quantize s.currentTime = s.lastProcessedTime
          · exact absurd
              (WebPlayer.wp_processCurrentFrame_none s
                (Or.inr (Or.inr (Or.inr hq)))) h
          · exact ⟨rfl, rfl, rfl, hq⟩
  · intro s h
    cases hp : s.paused with
    | true => exact absurd (Extension.ext_intervalTick_none s (Or.inl hp)) h
    | false =>
      cases hsk : s.isSkipping with
      | true =>
        exact absurd (Extension.ext_intervalTick_none s (Or.inr (Or.inl hsk))) h
      | false =>
        cases hw : s.wsOpen with
        | false =>
          exact absurd
            (Extension.ext_intervalTick_none s (Or.inr (Or.inr (Or.inl hw)))) h
        | true =>
          by_cases hq : quantize s.currentTime = s.lastProcessedTime
          · exact absurd
              (Extension.ext_intervalTick_none s (Or.inr (Or.inr (Or.inr hq)))) h
          · exact ⟨rfl, rfl, rfl, hq⟩
  · intro s
    refine ⟨rfl, ?_⟩
    intro hnn hp hs hw
    have hq : quantize s.currentTime ≠ (-1 : ℚ) := by
      have hge := quantize_nonneg s.currentTime hnn
      intro hEq
      rw [hEq] at hge
      linarith
    simp [Extension.intervalTick, Extension.processCurrentFrame,
      Extension.onSeeked, hp, hs, hw, hq]

/-- C6, witness: after the extension's seeked reset, a qualifying tick at
10.2 s signals; and the guard theorem applied at the Idle fixture whose
qualifying tick does emit. -/
theorem c6_sampler_guard_witness :
    (Extension.intervalTick (Extension.onSeeked extAfterSeek)).1 =
      some (OutMsg.process_frame (51 / 5)) ∧
    (wpIdle.paused = false ∧ wpIdle.isSkipping = false ∧ wpIdle.wsOpen = true ∧
      quantize wpIdle.currentTime ≠ wpIdle.lastProcessedTime) := by
  constructor
  · exact ((c6_sampler_guard.2.2.1 extAfterSeek).2)
      (by norm_num [extAfterSeek, extIdle]) rfl rfl rfl
  · refine c6_sampler_guard.1 wpIdle ?_
    have hv : (WebPlayer.processCurrentFrame wpIdle).1 =
        some (OutMsg.process_frame 10) := by
      norm_num [WebPlayer.processCurrentFrame, wpIdle, quantize]
    rw [hv]
    simp

/-
Claim C7 — sends while the channel is not Open are dropped, never queued.
-/

/-- If the web player's tick emits a request, the channel was open at
that tick and the request carries the tick's own raw timestamp. -/
theorem WebPlayer.wp_processCurrentFrame_some (s : WebPlayer.State) (m : OutMsg)
    (h : (WebPlayer.processCurrentFrame s).1 = some m) :
    s.wsOpen = true ∧ m = OutMsg.process_frame s.currentTime := by
  have hne : (WebPlayer.processCurrentFrame s).1 ≠ none := by rw [h]; simp
  cases hp : s.paused with
  | true => exact absurd (WebPlayer.wp_processCurrentFrame_none s (Or.inl hp)) hne
  | false =>
    cases hsk : s.isSkipping with
    | true =>
      exact absurd
        (WebPlayer.wp_processCurrentFrame_none s (Or.inr (Or.inl hsk))) hne
    | false =>
      cases hw : s.wsOpen with
      | false =>
        exact absurd
          (WebPlayer.wp_processCurrentFrame_none s (Or.inr (Or.inr (Or.inl hw)))) hne
      | true =>
        by_cases hq : quantize s.currentTime = s.lastProcessedTime
        · exact absurd
            (WebPlayer.wp_processCurrentFrame_none s
              (Or.inr (Or.inr (Or.inr hq)))) hne
        · refine ⟨rfl, ?_⟩
          unfold WebPlayer.processCurrentFrame at h
          simp [hp, hsk, hw, hq] at h
          exact h.symm

/-- If the extension's sampler emits a request, the channel was open at
that call and the request carries the call's own raw timestamp. -/
theorem Extension.ext_processCurrentFrame_some (s : Extension.State) (m : OutMsg)
    (h : (Extension.processCurrentFrame s).1 = some m) :
    s.wsOpen = true ∧ m = OutMsg.process_frame s.currentTime := by
  unfold Extension.processCurrentFrame at h
  by_cases hsk : s.isSkipping = true
  · simp [hsk] at h
  · by_cases hq : quantize s.currentTime = s.lastProcessedTime
    · simp [hsk, hq] at h
    · cases hw : s.wsOpen with
      | false => simp [hsk, hq, hw] at h
      | true =>
        simp [hsk, hq, hw] at h
        exact ⟨rfl, h.symm⟩

/-- C7.  While the channel is not Open, the outbound classification
request path is a no-op: the web player's `processCurrentFrame` returns
the state entirely unchanged and emits nothing; the extension's emits
nothing and changes at most the sampler's `lastProcessedTime` (there is
no queue in either state).  Moreover every request either implementation
ever emits is the `process_frame` message for the emitting tick's own
current playback time, so no dropped request is ever replayed later. -/
theorem c7_send_noop :
    (∀ s : WebPlayer.State, s.wsOpen = false →
      WebPlayer.processCurrentFrame s = (none, s)) ∧
    (∀ (s : WebPlayer.State) (m : OutMsg),
      (WebPlayer.processCurrentFrame s).1 = some m →
      s.wsOpen = true ∧ m = OutMsg.process_frame s.currentTime) ∧
    (∀ s : Extension.State, s.wsOpen = false →
      (Extension.processCurrentFrame s).1 = none ∧
      ((Extension.processCurrentFrame s).2 = s ∨
        (Extension.processCurrentFrame s).2 =
          { s with lastProcessedTime := quantize s.currentTime })) ∧
    (∀ (s : Extension.State) (m : OutMsg),
      (Extension.processCurrentFrame s).1 = some m →
      s.wsOpen = true ∧ m = OutMsg.process_frame s.currentTime) := by
  refine ⟨?_, WebPlayer.wp_processCurrentFrame_some, ?_,
    Extension.ext_processCurrentFrame_some⟩
  · intro s h
    unfold WebPlayer.processCurrentFrame
    simp [h]
  · intro s h
    unfold Extension.processCurrentFrame
    by_cases hsk : s.isSkipping = true
    · simp [hsk]
    · by_cases hq : quantize s.currentTime = s.lastProcessedTime
      · simp [hsk, hq]
      · simp [hsk, hq, h]

/-- C7, witness: the no-op theorem applied at the Idle fixtures with the
channel closed, and the freshness part applied at the emitting Idle
fixture. -/
theorem c7_send_noop_witness :
    WebPlayer.processCurrentFrame { wpIdle with wsOpen := false } =
      (none, { wpIdle with wsOpen := false }) ∧
    (Extension.processCurrentFrame { extIdle with wsOpen := false }).1 = none ∧
    (wpIdle.wsOpen = true ∧
      OutMsg.process_frame 10 = OutMsg.process_frame wpIdle.currentTime) := by
  refine ⟨c7_send_noop.1 { wpIdle with wsOpen := false } rfl,
    (c7_send_noop.2.2.1 { extIdle with wsOpen := false } rfl).1, ?_⟩
  refine c7_send_noop.2.1 wpIdle (OutMsg.process_frame 10) ?_
  norm_num [WebPlayer.processCurrentFrame, wpIdle, quantize]

/-
Claim C8 — render ordering while Skipping.
-/

/-- C8, counterexample.  The claim states that a render tick taken while
Skipping renders a full-frame opaque indicator and skips the
classification-overlay step.  The web player's `updateOverlay` (part_001
lines 130-201) does neither: mid-skip, with a record in the lookback
window, the tick still draws the classification overlay (label text and
confidence bar) and then draws only a centered text indicator over it —
no full-frame fill appears in the command list. -/
theorem c8_render_counterexample :
    wpSkipping.isSkipping = true ∧
    (WebPlayer.updateOverlay wpSkipping).1 =
      [DrawCmd.clear, DrawCmd.classText "nsfw" (9 / 10) true,
       DrawCmd.confBar (9 / 10) true, DrawCmd.skipText] := by
  refine ⟨rfl, ?_⟩
  norm_num [WebPlayer.updateOverlay, wpSkipping, wpIdle, lookupRelevant,
    bucketBefore, quantize, put, emptyStore, flaggedClass,
    WebPlayer.processCurrentFrame]

/-- C8, amended.  Mid-skip, the web player's render tick draws the
classification overlay whenever the lookback finds a record, then draws
the centered skip text last (so the skip indicator is painted on top of,
not instead of, the classification overlay), and its sampling call emits
no request.  The extension's overlay redraw (performed per classification
arrival rather than per display frame) does skip the classification
overlay mid-skip, drawing the full-frame fill, skip text and spinner
only, and its sampler likewise emits nothing mid-skip. -/
theorem c8_render_order :
    (∀ s : WebPlayer.State, s.isSkipping = true →
      (WebPlayer.updateOverlay s).1 =
        DrawCmd.clear ::
          ((match lookupRelevant s.classifications s.currentTime with
            | some c => [DrawCmd.classText c.label c.confidence c.is_nsfw,
                         DrawCmd.confBar c.confidence c.is_nsfw]
            | none => []) ++ [DrawCmd.skipText]) ∧
      (WebPlayer.updateOverlay s).2.1 = none) ∧
    (∀ (c : Classification) (s : Extension.State), s.isSkipping = true →
      Extension.updateOverlayDisplay c s =
        [DrawCmd.clear, DrawCmd.fullFrameFill, DrawCmd.skipText,
         DrawCmd.spinner] ∧
      (Extension.processCurrentFrame s).1 = none) := by
  constructor
  · intro s hs
    constructor
    · unfold WebPlayer.updateOverlay
      rcases hrel : lookupRelevant s.classifications s.currentTime with _ | c <;>
        simp [hrel, hs]
    · unfold WebPlayer.updateOverlay
      rcases hrel : lookupRelevant s.classifications s.currentTime with _ | c <;>
        simp only [hrel] <;>
        exact WebPlayer.wp_processCurrentFrame_none _ (Or.inr (Or.inl hs))
  · intro c s hs
    constructor
    · simp [Extension.updateOverlayDisplay, hs]
    · simp [Extension.processCurrentFrame, hs]

/-- C8, witness: the ordering theorem applied at the mid-skip fixtures. -/
theorem c8_render_order_witness :
    (WebPlayer.updateOverlay wpSkipping).2.1 = none ∧
    Extension.updateOverlayDisplay flaggedClass
        { extIdle with isSkipping := true } =
      [DrawCmd.clear, DrawCmd.fullFrameFill, DrawCmd.skipText,
       DrawCmd.spinner] :=
  ⟨(c8_render_order.1 wpSkipping rfl).2,
   (c8_render_order.2 flaggedClass { extIdle with isSkipping := true } rfl).1⟩

/-
Claim C9 — malformed inbound messages.
-/

/-- C9, counterexample.  The claim states every malformed inbound payload
is discarded without throwing out of the handler.  The extension's
`ws.onmessage` (background.js lines 311-313) calls
`handleServerMessage(JSON.parse(event.data))` with no try/catch, so a
payload that fails to parse (embedded as `none`) propagates the exception
out of the handler — the embedded handler aborts with `none` instead of
returning a state. -/
theorem c9_malformed_counterexample :
    Extension.onmessage none extIdle = none := rfl

/-- C9, amended.  The web player's `handleWebSocketMessage` wraps the
parse and dispatch in try/catch: a malformed payload leaves the entire
state (classification store, skip state and all) exactly unchanged and
sends nothing.  The extension's `onmessage` has no such guard: a
malformed payload throws out of the handler — though, since the exception
is raised before any mutation, no state is changed by the aborted call
there either. -/
theorem c9_malformed_handling :
    (∀ (settings : SkipSettings) (s : WebPlayer.State),
      WebPlayer.handleWebSocketMessage settings none s = (s, [])) ∧
    (∀ s : Extension.State, Extension.onmessage none s = none) :=
  ⟨fun _ _ => rfl, fun _ => rfl⟩

/-
Claim C10 — the skip decision ignores the play/pause state.
-/

/-- C10.  Neither implementation's skip path reads the media element's
paused flag: for every paused value — including `paused = true` — a
flagged classification meeting the enabled, confidence and Idle
conditions appends the SkipEvent and commands the seek exactly as when
playing. -/
theorem c10_skip_ignores_pause :
    (∀ (settings : SkipSettings) (c : Classification) (s : WebPlayer.State)
        (b : Bool),
      settings.enabled = true → c.is_nsfw = true →
      settings.confidenceThreshold ≤ c.confidence → s.isSkipping = false →
      (WebPlayer.handleClassification settings c
        { s with paused := b }).isSkipping = true ∧
      (WebPlayer.handleClassification settings c
        { s with paused := b }).skipHistory =
        s.skipHistory ++
          [{ fromTime := s.currentTime,
             toTime := min (s.currentTime + settings.skipDuration) (s.duration - 1),
             confidence := c.confidence, label := c.label }] ∧
      (WebPlayer.handleClassification settings c
        { s with paused := b }).currentTime =
        min (s.currentTime + settings.skipDuration) (s.duration - 1)) ∧
    (∀ (c : Classification) (s : Extension.State) (b : Bool),
      s.settings.enabled = true → c.is_nsfw = true →
      s.settings.confidenceThreshold < c.confidence → s.isSkipping = false →
      (Extension.handleClassification c { s with paused := b }).isSkipping = true ∧
      (Extension.handleClassification c { s with paused := b }).skipHistory =
        s.skipHistory ++
          [{ fromTime := s.currentTime,
             toTime := min (s.currentTime + s.settings.skipDuration) (s.duration - 1),
             confidence := c.confidence, label := c.label }] ∧
      (Extension.handleClassification c { s with paused := b }).currentTime =
        min (s.currentTime + s.settings.skipDuration) (s.duration - 1)) := by
  constructor
  · intro settings c s b he hn hc hi
    rw [WebPlayer.wp_handleClassification_fires settings c { s with paused := b }
      he hn hc hi]
    exact ⟨rfl, rfl, rfl⟩
  · intro c s b he hn hc hi
    rw [Extension.ext_handleClassification_fires c { s with paused := b }
      he hn hc hi]
    exact ⟨rfl, rfl, rfl⟩

/-- C10, witness: a flagged 0.9-confidence classification skips both
paused fixtures. -/
theorem c10_skip_ignores_pause_witness :
    (WebPlayer.handleClassification refSettings flaggedClass
      { wpIdle with paused := true }).isSkipping = true ∧
    (Extension.handleClassification flaggedClass
      { extIdle with paused := true }).isSkipping = true := by
  constructor
  · exact (c10_skip_ignores_pause.1 refSettings flaggedClass wpIdle true rfl rfl
      (by norm_num [refSettings, flaggedClass]) rfl).1
  · exact (c10_skip_ignores_pause.2 flaggedClass extIdle true rfl rfl
      (by norm_num [extIdle, refSettings, flaggedClass]) rfl).1
